import Mathlib

/-!
Verification of the Meldebestätigung (MB Format) parser library
(`Meldebestaetigung.py`) and its EDIFACT-envelope CLI front end
(`mbcheck.py`).

The Python code is shallowly embedded: strings are `List Char` (matching
Python `str` as a character sequence), `str.split("&")` is `splitOnChar '&'`,
`"&".join` is `joinOnChar '&'`, `datetime.strptime(_, "%Y%m%d")` is
`strptimeYmd8`, Python `int(...)` applied to a string is `pyIntParse`, and
`hashlib.sha256(...).hexdigest()` is `sha256hexOfBytes`.  Fallible Python
operations (raising `ValueError` / `UnicodeEncodeError`) return
`Except`/`Option`.  ASCII character classes are modelled exactly; the
exotic-Unicode additions of Python's `str.isdigit`/`int` (e.g. superscript
digits) are outside the modelled character classes, which is irrelevant for
the properties below, all of which concern the ASCII wire format.
-/

/-- Python strings, as sequences of characters. -/
abbrev Str := List Char

/-! ## Splitting and joining on the field separator (Python `str.split`/`str.join`) -/

/-- Python `s.split(sep)` for a one-character separator: `"".split` gives
`[""]`, separators at the ends give empty fields. -/
def splitOnChar (sep : Char) : Str → List Str
  | [] => [[]]
  | c :: cs =>
    if c = sep then [] :: splitOnChar sep cs
    else
      match splitOnChar sep cs with
      | [] => [[c]]
      | f :: rest => (c :: f) :: rest

/-- Python `sep.join(fields)` for a one-character separator. -/
def joinOnChar (sep : Char) : List Str → Str
  | [] => []
  | [f] => f
  | f :: g :: rest => f ++ sep :: joinOnChar sep (g :: rest)

/-! ## Python `int()` applied to a string -/

/-- Whitespace stripped by Python `int()` around the literal (ASCII part). -/
def isPySpace (c : Char) : Bool :=
  c = ' ' || c = '\t' || c = '\n' || c = '\x0b' || c = '\x0c' || c = '\r'

/-- Strip leading and trailing whitespace. -/
def stripWs (l : Str) : Str :=
  ((l.dropWhile isPySpace).reverse.dropWhile isPySpace).reverse

/-- The digit body accepted by Python `int()`: nonempty decimal digits with
single underscores allowed strictly between digits. -/
def intDigitsOk : Str → Bool
  | [] => false
  | [c] => c.isDigit
  | c :: c2 :: rest =>
    c.isDigit &&
      (if c2 = '_' then
        match rest with
        | [] => false
        | _ :: _ => intDigitsOk rest
      else intDigitsOk (c2 :: rest))

/-- Decimal value of a digit string (underscores skipped). -/
def digitsToNat (l : Str) : Nat :=
  l.foldl (fun a c => if c = '_' then a else a * 10 + (c.toNat - 48)) 0

/-- Python `int(s)` on a string: optional surrounding whitespace, optional
sign, then a digit body; raises `ValueError` (here: `none`) otherwise. -/
def pyIntParse (l : Str) : Option Int :=
  let t := stripWs l
  match t with
  | '+' :: rest => if intDigitsOk rest then some (digitsToNat rest) else none
  | '-' :: rest => if intDigitsOk rest then some (-(digitsToNat rest : Int)) else none
  | _ => if intDigitsOk t then some (digitsToNat t) else none

/-! ## `datetime.strptime(date_str, "%Y%m%d")` on an 8-character slice -/

/-- A parsed calendar date, as produced by `datetime.strptime`. -/
structure PyDate where
  year : Nat
  month : Nat
  day : Nat
deriving DecidableEq

/-- Proleptic-Gregorian leap year, as used by Python `datetime`. -/
def isLeapYear (y : Nat) : Bool :=
  y % 4 = 0 && (y % 100 ≠ 0 || y % 400 = 0)

/-- Days in a month, as enforced by the `datetime` constructor. -/
def daysInMonth (y m : Nat) : Nat :=
  if m = 2 then (if isLeapYear y then 29 else 28)
  else if m = 4 || m = 6 || m = 9 || m = 11 then 30
  else 31

/-- `datetime.strptime(s, "%Y%m%d")` on an 8-character string: `%Y` consumes
4 digits, `%m` and `%d` 2 digits each (their regexes exclude `00`), and the
`datetime` constructor enforces year ≥ 1 and the day range of the month. -/
def strptimeYmd8 (l : Str) : Option PyDate :=
  if l.length = 8 && l.all Char.isDigit then
    let y := digitsToNat (l.take 4)
    let m := digitsToNat ((l.drop 4).take 2)
    let d := digitsToNat (l.drop 6)
    if 1 ≤ y && 1 ≤ m && m ≤ 12 && 1 ≤ d && d ≤ daysInMonth y m then
      some ⟨y, m, d⟩
    else none
  else none

/-! ## Code tables (`MELDUNGSTYP`, …): insertion-ordered, as Python dicts -/

def MELDUNGSTYP : List (Str × Str) :=
  [(("0").data, ("Erstmeldung").data),
   (("1").data, ("Follow-Up").data),
   (("2").data, ("Nachmeldung").data),
   (("3").data, ("Korrektur").data),
   (("9").data, ("Test").data)]

def INDIKATIONSBEREICH : List (Str × Str) :=
  [(("O").data, ("Onkologische Erkrankungen").data),
   (("R").data, ("Seltene Erkrankungen").data),
   (("H").data, ("Hereditäres Tumorsyndrom").data)]

def PRODUKTZUORDNUNG : List (Str × Str) :=
  [(("9").data, ("MV GenomSeq").data)]

def KOSTENTRAEGER : List (Str × Str) :=
  [(("1").data, ("GKV (Gesetzliche Krankenversicherung)").data),
   (("2").data, ("PKV (Private Krankenversicherung)").data),
   (("3").data, ("PKV/Beihilfe").data),
   (("4").data, ("Andere").data)]

def ART_DER_DATEN : List (Str × Str) :=
  [(("C").data, ("Klinische Daten").data),
   (("G").data, ("Genomische Daten").data)]

def ART_DER_SEQUENZIERUNG : List (Str × Str) :=
  [(("0").data, ("Keine Sequenzierung").data),
   (("1").data, ("WGS (Whole Genome Sequencing)").data),
   (("2").data, ("WES (Whole Exome Sequencing)").data),
   (("3").data, ("Panel-Sequenzierung").data),
   (("4").data, ("WGS_LR (Long-Read Whole Genome Sequencing)").data)]

def QUALITAETSKONTROLLE : List (Str × Str) :=
  [(("0").data, ("Nicht bestanden").data),
   (("1").data, ("Bestanden").data)]

/-! ## Warning message strings (Python f-strings, built by concatenation) -/

/-- The ASCII apostrophe, as printed by Python `repr` on simple strings. -/
def aposChar : Char := Char.ofNat 39

/-- `", ".join`-style joining used by Python `str(list)`. -/
def commaJoin : List Str → Str
  | [] => []
  | [x] => x
  | x :: y :: rest => x ++ (',' :: ' ' :: commaJoin (y :: rest))

/-- Python `str(xs)` for a list of simple strings: `['0', '1']`. -/
def pyListRepr (l : List Str) : Str :=
  '[' :: (commaJoin (l.map (fun s => aposChar :: (s ++ [aposChar]))) ++ ([']'] : Str))

def preChars : Str :=
  ("MB String enthält ungültige Zeichen. Erlaubt sind nur: [a-z][A-Z][0-9][&]").data

def msgChars : Str := preChars

def preCount : Str := ("MB Format erwartet 11 Felder, aber ").data

def msgCount (n : Nat) : Str := preCount ++ ((Nat.repr n).data ++ (" gefunden").data)

def preLenCode : Str := ("Alphanumerischer Code muss 10 Zeichen haben, hat aber ").data

def msgLenCode (n : Nat) : Str := preLenCode ++ (Nat.repr n).data

def preN11 : Str := ("Leistungsdatum+Zähler muss 11 Ziffern haben (JJJJMMTTZZZ): ").data

def msgN11 (x : Str) : Str := preN11 ++ x

def preLenLE : Str := ("Leistungserbringer-ID muss 9 Zeichen haben, hat aber ").data

def msgLenLE (n : Nat) : Str := preLenLE ++ (Nat.repr n).data

def preLenDK : Str := ("Datenknoten-ID muss 9 Zeichen haben, hat aber ").data

def msgLenDK (n : Nat) : Str := preLenDK ++ (Nat.repr n).data

def preMeld : Str := ("Ungültiger Meldungstyp ").data ++ [aposChar]

def msgMeld (x : Str) : Str :=
  preMeld ++ (x ++ (aposChar :: ((". Erlaubt: ").data ++ pyListRepr (MELDUNGSTYP.map Prod.fst))))

def preIndik : Str := ("Ungültiger Indikationsbereich ").data ++ [aposChar]

def msgIndik (x : Str) : Str :=
  preIndik ++ (x ++ (aposChar :: ((". Erlaubt: ").data ++ pyListRepr (INDIKATIONSBEREICH.map Prod.fst))))

def preProd : Str := ("Ungültige Produktzuordnung ").data ++ [aposChar]

def msgProd (x : Str) : Str :=
  preProd ++ (x ++ (aposChar :: ((". Erlaubt: ").data ++ pyListRepr (PRODUKTZUORDNUNG.map Prod.fst))))

def preKost : Str := ("Ungültiger Kostenträger ").data ++ [aposChar]

def msgKost (x : Str) : Str :=
  preKost ++ (x ++ (aposChar :: ((". Erlaubt: ").data ++ pyListRepr (KOSTENTRAEGER.map Prod.fst))))

def preArtD : Str := ("Ungültige Art der Daten ").data ++ [aposChar]

def msgArtD (x : Str) : Str :=
  preArtD ++ (x ++ (aposChar :: ((". Erlaubt: ").data ++ pyListRepr (ART_DER_DATEN.map Prod.fst))))

def preArtS : Str := ("Ungültige Art der Sequenzierung ").data ++ [aposChar]

def msgArtS (x : Str) : Str :=
  preArtS ++ (x ++ (aposChar :: ((". Erlaubt: ").data ++ pyListRepr (ART_DER_SEQUENZIERUNG.map Prod.fst))))

def preQK : Str := ("Ungültiges QK-Ergebnis ").data ++ [aposChar]

def msgQK (x : Str) : Str :=
  preQK ++ (x ++ (aposChar :: ((". Erlaubt: ").data ++ pyListRepr (QUALITAETSKONTROLLE.map Prod.fst))))

def preLZ : Str := ("Ungültiges Leistungsdatum/Zähler Format: ").data

def msgLZ (x : Str) : Str := preLZ ++ x

/-! ## Syntax validation (`Meldebestaetigung._validate_syntax`) -/

/-- Characters admitted by the regex character class `[a-zA-Z0-9&]`. -/
def allowedChar (c : Char) : Bool :=
  c.isAlpha || c.isDigit || c = '&'

/-- `re.compile(r'^[a-zA-Z0-9&]+$').match(s)` succeeds: a nonempty run of
allowed characters covering the whole string, where — as in Python — `$` also
matches just before a single newline at the very end of the string. -/
def charsetOk (s : Str) : Bool :=
  let t := if s.getLast? = some '\n' then s.dropLast else s
  !t.isEmpty && t.all allowedChar

/-- Python `str.isdigit()`: nonempty and all digits. -/
def pyIsDigit (l : Str) : Bool :=
  !l.isEmpty && l.all Char.isDigit

/-- The allowed-character check of `_validate_syntax`. -/
def chunkChar (s : Str) : List Str :=
  if charsetOk s then [] else [msgChars]

/-- Field 1 check: `len(parts[0]) != 10`. -/
def chunk0 (parts : List Str) : List Str :=
  if (parts.getD 0 []).length = 10 then [] else [msgLenCode (parts.getD 0 []).length]

/-- Field 2 check: `len(parts[1]) != 11 or not parts[1].isdigit()`. -/
def chunk1 (parts : List Str) : List Str :=
  if (parts.getD 1 []).length = 11 && pyIsDigit (parts.getD 1 []) then []
  else [msgN11 (parts.getD 1 [])]

/-- Field 3 check: `len(parts[2]) != 9`. -/
def chunk2 (parts : List Str) : List Str :=
  if (parts.getD 2 []).length = 9 then [] else [msgLenLE (parts.getD 2 []).length]

/-- Field 4 check: `len(parts[3]) != 9`. -/
def chunk3 (parts : List Str) : List Str :=
  if (parts.getD 3 []).length = 9 then [] else [msgLenDK (parts.getD 3 []).length]

/-- Field 5 check: `parts[4] not in MELDUNGSTYP`. -/
def chunk4 (parts : List Str) : List Str :=
  if parts.getD 4 [] ∈ MELDUNGSTYP.map Prod.fst then [] else [msgMeld (parts.getD 4 [])]

/-- Field 6 check: `parts[5] not in INDIKATIONSBEREICH`. -/
def chunk5 (parts : List Str) : List Str :=
  if parts.getD 5 [] ∈ INDIKATIONSBEREICH.map Prod.fst then [] else [msgIndik (parts.getD 5 [])]

/-- Field 7 check: `parts[6] not in PRODUKTZUORDNUNG`. -/
def chunk6 (parts : List Str) : List Str :=
  if parts.getD 6 [] ∈ PRODUKTZUORDNUNG.map Prod.fst then [] else [msgProd (parts.getD 6 [])]

/-- Field 8 check: `parts[7] not in KOSTENTRAEGER`. -/
def chunk7 (parts : List Str) : List Str :=
  if parts.getD 7 [] ∈ KOSTENTRAEGER.map Prod.fst then [] else [msgKost (parts.getD 7 [])]

/-- Field 9 check: `parts[8] not in ART_DER_DATEN`. -/
def chunk8 (parts : List Str) : List Str :=
  if parts.getD 8 [] ∈ ART_DER_DATEN.map Prod.fst then [] else [msgArtD (parts.getD 8 [])]

/-- Field 10 check: `parts[9] not in ART_DER_SEQUENZIERUNG`. -/
def chunk9 (parts : List Str) : List Str :=
  if parts.getD 9 [] ∈ ART_DER_SEQUENZIERUNG.map Prod.fst then [] else [msgArtS (parts.getD 9 [])]

/-- Field 11 check: `parts[10] not in QUALITAETSKONTROLLE`. -/
def chunk10 (parts : List Str) : List Str :=
  if parts.getD 10 [] ∈ QUALITAETSKONTROLLE.map Prod.fst then [] else [msgQK (parts.getD 10 [])]

/-- `Meldebestaetigung._validate_syntax`: character-class check first, then —
only when exactly 11 fields are present — the per-field checks in source
order, each appending at most one warning. -/
def Meldebestaetigung.validate_syntax (s : Str) : List Str :=
  if (splitOnChar '&' s).length ≠ 11 then
    chunkChar s ++ [msgCount (splitOnChar '&' s).length]
  else
    chunkChar s ++ chunk0 (splitOnChar '&' s) ++ chunk1 (splitOnChar '&' s) ++
      chunk2 (splitOnChar '&' s) ++ chunk3 (splitOnChar '&' s) ++ chunk4 (splitOnChar '&' s) ++
      chunk5 (splitOnChar '&' s) ++ chunk6 (splitOnChar '&' s) ++ chunk7 (splitOnChar '&' s) ++
      chunk8 (splitOnChar '&' s) ++ chunk9 (splitOnChar '&' s) ++ chunk10 (splitOnChar '&' s)

/-! ## The record and its construction -/

/-- `Meldebestaetigung._parse_leistungsdatum_zaehler`, run by `__post_init__`
on the composite field: returns the derived `_leistungsdatum`, `_zaehler`,
and the warnings it appends.  If the length is not 11 nothing happens.
Otherwise the date prefix is parsed first (and assigned before the counter is
attempted — so a failing counter leaves the date set), and a `ValueError`
from either parse appends exactly one warning. -/
def parseLeistungsdatumZaehler (f : Str) : Option PyDate × Option Int × List Str :=
  if f.length = 11 then
    match strptimeYmd8 (f.take 8) with
    | none => (none, none, [msgLZ f])
    | some d =>
      match pyIntParse (f.drop 8) with
      | none => (some d, none, [msgLZ f])
      | some z => (some d, some z, [])
  else (none, none, [])

/-- The `Meldebestaetigung` dataclass: the 11 raw fields, the derived
`_leistungsdatum`/`_zaehler` components, and the accumulated `_warnings`. -/
structure Meldebestaetigung where
  alphanumerischer_code : Str
  leistungsdatum_zaehler : Str
  leistungserbringer_id : Str
  datenknoten_id : Str
  meldungstyp : Str
  indikationsbereich : Str
  produktzuordnung : Str
  kostentraeger : Str
  art_der_daten : Str
  art_der_sequenzierung : Str
  qualitaetskontrolle : Str
  leistungsdatum : Option PyDate
  zaehler : Option Int
  warnings : List Str
deriving DecidableEq

/-- The instance built by `from_string` from an 11-field input: the 11 raw
fields verbatim, the derived components from `__post_init__`, and the
derivation warnings followed by the syntax-validation warnings. -/
def Meldebestaetigung.recordOf (s : Str) : Meldebestaetigung :=
  { alphanumerischer_code := (splitOnChar '&' s).getD 0 []
    leistungsdatum_zaehler := (splitOnChar '&' s).getD 1 []
    leistungserbringer_id := (splitOnChar '&' s).getD 2 []
    datenknoten_id := (splitOnChar '&' s).getD 3 []
    meldungstyp := (splitOnChar '&' s).getD 4 []
    indikationsbereich := (splitOnChar '&' s).getD 5 []
    produktzuordnung := (splitOnChar '&' s).getD 6 []
    kostentraeger := (splitOnChar '&' s).getD 7 []
    art_der_daten := (splitOnChar '&' s).getD 8 []
    art_der_sequenzierung := (splitOnChar '&' s).getD 9 []
    qualitaetskontrolle := (splitOnChar '&' s).getD 10 []
    leistungsdatum := (parseLeistungsdatumZaehler ((splitOnChar '&' s).getD 1 [])).1
    zaehler := (parseLeistungsdatumZaehler ((splitOnChar '&' s).getD 1 [])).2.1
    warnings := (parseLeistungsdatumZaehler ((splitOnChar '&' s).getD 1 [])).2.2 ++
      Meldebestaetigung.validate_syntax s }

/-- `Meldebestaetigung.from_string`: validate the syntax, split on `&`,
raise `ValueError` (here: `Except.error`) when the field count is not 11,
otherwise construct the instance — `__post_init__` first appends the
derivation warnings, then `from_string` extends with the syntax warnings. -/
def Meldebestaetigung.from_string (s : Str) : Except Str Meldebestaetigung :=
  if (splitOnChar '&' s).length = 11 then
    Except.ok (Meldebestaetigung.recordOf s)
  else Except.error (msgCount (splitOnChar '&' s).length)

/-- `Meldebestaetigung.to_mb_string`: the canonical `&`-joined
reconstruction of the 11 raw fields, in fixed order. -/
def Meldebestaetigung.to_mb_string (m : Meldebestaetigung) : Str :=
  joinOnChar '&'
    [m.alphanumerischer_code, m.leistungsdatum_zaehler, m.leistungserbringer_id,
     m.datenknoten_id, m.meldungstyp, m.indikationsbereich, m.produktzuordnung,
     m.kostentraeger, m.art_der_daten, m.art_der_sequenzierung, m.qualitaetskontrolle]

/-! ## SHA-256 (`hashlib.sha256(...).hexdigest()`), FIPS 180-4 -/

/-- Truncate to a 32-bit word. -/
def w32 (x : Nat) : Nat := x % 4294967296

/-- Right rotation of a 32-bit word. -/
def rotr (n x : Nat) : Nat := w32 ((x >>> n) ||| (x <<< (32 - n)))

def shaCh (e f g : Nat) : Nat := (e &&& f) ^^^ ((e ^^^ 4294967295) &&& g)

def shaMaj (a b c : Nat) : Nat := (a &&& b) ^^^ (a &&& c) ^^^ (b &&& c)

def bigSigma0 (x : Nat) : Nat := rotr 2 x ^^^ rotr 13 x ^^^ rotr 22 x

def bigSigma1 (x : Nat) : Nat := rotr 6 x ^^^ rotr 11 x ^^^ rotr 25 x

def smallSigma0 (x : Nat) : Nat := rotr 7 x ^^^ rotr 18 x ^^^ (x >>> 3)

def smallSigma1 (x : Nat) : Nat := rotr 17 x ^^^ rotr 19 x ^^^ (x >>> 10)

/-- The 64 SHA-256 round constants (FIPS 180-4, in decimal). -/
def shaK : List Nat :=
  [1116352408, 1899447441, 3049323471, 3921009573,
   961987163, 1508970993, 2453635748, 2870763221,
   3624381080, 310598401, 607225278, 1426881987,
   1925078388, 2162078206, 2614888103, 3248222580,
   3835390401, 4022224774, 264347078, 604807628,
   770255983, 1249150122, 1555081692, 1996064986,
   2554220882, 2821834349, 2952996808, 3210313671,
   3336571891, 3584528711, 113926993, 338241895,
   666307205, 773529912, 1294757372, 1396182291,
   1695183700, 1986661051, 2177026350, 2456956037,
   2730485921, 2820302411, 3259730800, 3345764771,
   3516065817, 3600352804, 4094571909, 275423344,
   430227734, 506948616, 659060556, 883997877,
   958139571, 1322822218, 1537002063, 1747873779,
   1955562222, 2024104815, 2227730452, 2361852424,
   2428436474, 2756734187, 3204031479, 3329325298]

/-- The eight working variables / digest words of SHA-256. -/
structure Hash8 where
  a : Nat
  b : Nat
  c : Nat
  d : Nat
  e : Nat
  f : Nat
  g : Nat
  h : Nat
deriving DecidableEq

/-- SHA-256 initial hash value (FIPS 180-4, in decimal). -/
def shaH0 : Hash8 :=
  ⟨1779033703, 3144134277, 1013904242, 2773480762,
   1359893119, 2600822924, 528734635, 1541459225⟩

/-- Extend the 16 message words by one scheduled word. -/
def stepW (w : List Nat) : List Nat :=
  w ++ [w32 (w.getD (w.length - 16) 0 + smallSigma0 (w.getD (w.length - 15) 0) +
    w.getD (w.length - 7) 0 + smallSigma1 (w.getD (w.length - 2) 0))]

/-- The 64-word message schedule from a 16-word chunk. -/
def schedule (w : List Nat) : List Nat :=
  (List.range 48).foldl (fun acc _ => stepW acc) w

/-- One SHA-256 round. -/
def shaRound (s : Hash8) (kw : Nat × Nat) : Hash8 :=
  let t1 := w32 (s.h + bigSigma1 s.e + shaCh s.e s.f s.g + kw.1 + kw.2)
  let t2 := w32 (bigSigma0 s.a + shaMaj s.a s.b s.c)
  ⟨w32 (t1 + t2), s.a, s.b, s.c, w32 (s.d + t1), s.e, s.f, s.g⟩

/-- Compress one 16-word chunk into the running hash. -/
def shaCompress (h : Hash8) (chunkWords : List Nat) : Hash8 :=
  let s := (shaK.zip (schedule chunkWords)).foldl shaRound h
  ⟨w32 (h.a + s.a), w32 (h.b + s.b), w32 (h.c + s.c), w32 (h.d + s.d),
   w32 (h.e + s.e), w32 (h.f + s.f), w32 (h.g + s.g), w32 (h.h + s.h)⟩

/-- Big-endian 8-byte encoding of the bit length. -/
def be8 (n : Nat) : List Nat :=
  [n >>> 56 % 256, n >>> 48 % 256, n >>> 40 % 256, n >>> 32 % 256,
   n >>> 24 % 256, n >>> 16 % 256, n >>> 8 % 256, n % 256]

/-- SHA-256 padding: `0x80`, zeros to 56 mod 64, then the 64-bit bit length. -/
def padMsg (m : List Nat) : List Nat :=
  m ++ [128] ++ List.replicate ((119 - m.length % 64) % 64) 0 ++ be8 (8 * m.length)

/-- The 16 big-endian words of one 64-byte chunk. -/
def bytesToWords (c : List Nat) : List Nat :=
  (List.range 16).map (fun i =>
    (c.getD (4 * i) 0) <<< 24 ||| (c.getD (4 * i + 1) 0) <<< 16 |||
      (c.getD (4 * i + 2) 0) <<< 8 ||| c.getD (4 * i + 3) 0)

/-- The padded message cut into 64-byte chunks. -/
def chunks64 (l : List Nat) : List (List Nat) :=
  (List.range (l.length / 64)).map (fun i => (l.drop (64 * i)).take 64)

/-- SHA-256 of a byte sequence, as the eight digest words. -/
def sha256words (m : List Nat) : Hash8 :=
  ((chunks64 (padMsg m)).map bytesToWords).foldl shaCompress shaH0

/-- Big-endian 4-byte split of a digest word. -/
def be4 (n : Nat) : List Nat :=
  [n >>> 24 % 256, n >>> 16 % 256, n >>> 8 % 256, n % 256]

/-- The 32 digest bytes. -/
def digestBytes (h : Hash8) : List Nat :=
  be4 h.a ++ be4 h.b ++ be4 h.c ++ be4 h.d ++ be4 h.e ++ be4 h.f ++ be4 h.g ++ be4 h.h

/-- Lowercase hex digit. -/
def hexDigit (n : Nat) : Char :=
  (("0123456789abcdef").data).getD n '0'

/-- Two lowercase hex characters of one byte. -/
def hexByte (b : Nat) : Str :=
  [hexDigit (b / 16 % 16), hexDigit (b % 16)]

/-- Lowercase hex rendering of a byte sequence (`hexdigest`). -/
def bytesToHex : List Nat → Str
  | [] => []
  | b :: bs => hexByte b ++ bytesToHex bs

/-- `hashlib.sha256(bytes).hexdigest()`. -/
def sha256hexOfBytes (m : List Nat) : Str :=
  bytesToHex (digestBytes (sha256words m))

/-- `Meldebestaetigung.compute_hash`: SHA-256 hex digest of
`to_mb_string().encode('ascii')`; `encode('ascii')` raises
`UnicodeEncodeError` (here: `none`) when a character is not ASCII. -/
def Meldebestaetigung.compute_hash (m : Meldebestaetigung) : Option Str :=
  if (Meldebestaetigung.to_mb_string m).all (fun c => c.toNat < 128) then
    some (sha256hexOfBytes ((Meldebestaetigung.to_mb_string m).map Char.toNat))
  else none

/-! ## The EDIFACT envelope (`parse_edifact_string` / `process_edifact_string`) -/

/-- Modelled from the spec: the result of `parse_edifact_string`, whose
source is imported by `mbcheck.py` but absent from the available material.
Per spec §4.4 it carries the embedded record and an optional embedded hash
token (`unset` if the envelope carries none); the envelope's framing grammar
itself is an open question in the spec and is not modelled. -/
structure EdifactResult where
  meldebestaetigung : Meldebestaetigung
  embedded_hash : Option Str
deriving DecidableEq

/-- Modelled from the spec (§4.4): `hash_matches()` is
`embedded_hash.is_set() && embedded_hash == record.content_hash()`; an unset
embedded hash gives `false`, not an error.  A failing hash computation
(non-ASCII record, a checked failure per §4.3) compares unequal. -/
def EdifactResult.hash_matches (er : EdifactResult) : Bool :=
  match er.embedded_hash, Meldebestaetigung.compute_hash er.meldebestaetigung with
  | some h, some c => h = c
  | _, _ => false

/-- The structured-export fields added by `process_edifact_string` in
`mbcheck.py` (lines 70–73): when the embedded hash is truthy (set and
nonempty) the export gains `embedded_hash` and
`hash_valid = (embedded_hash == mb.compute_hash())`; otherwise both fields
are absent.  The outer `Option` is `none` when `compute_hash` raises. -/
def exportHashFields (er : EdifactResult) : Option (Option Str × Option Bool) :=
  match er.embedded_hash with
  | none => some (none, none)
  | some h =>
    if h = [] then some (none, none)
    else
      match Meldebestaetigung.compute_hash er.meldebestaetigung with
      | none => none
      | some c => some (some h, some (h = c))

/-! ## Statement apparatus and concrete inputs -/

/-- Number of occurrences of a string in a findings list. -/
def countOcc (x : Str) : List Str → Nat
  | [] => 0
  | w :: ws => (if w = x then 1 else 0) + countOcc x ws

/-- The documentation's end-to-end example input. -/
def sOk : Str := ("A123456789&20240701001&260530103&KDKK00001&0&O&9&1&C&2&1").data

/-- Valid input except the composite field has a non-digit in the date part. -/
def sBadDate : Str := ("A123456789&2024070X001&260530103&KDKK00001&0&O&9&1&C&2&1").data

/-- Valid input except the composite field is 11 digits with month 13. -/
def sDigitsBadDate : Str := ("A123456789&20241399001&260530103&KDKK00001&0&O&9&1&C&2&1").data

/-- Valid input except the composite counter has a non-digit. -/
def sCounterX : Str := ("A123456789&20240701X01&260530103&KDKK00001&0&O&9&1&C&2&1").data

/-- Valid input except the composite counter is `+12`. -/
def sCounterPlus : Str := ("A123456789&20240701+12&260530103&KDKK00001&0&O&9&1&C&2&1").data

/-- Valid input except field 5 carries the unknown report-type code `7`. -/
def sBadMeld : Str := ("A123456789&20240701001&260530103&KDKK00001&7&O&9&1&C&2&1").data

/-- Valid input except the first character is the non-ASCII `Ä`. -/
def sNonAscii : Str := ("Ä123456789&20240701001&260530103&KDKK00001&0&O&9&1&C&2&1").data

/-- The end-to-end example input with a single trailing newline appended. -/
def sNewline : Str := sOk ++ ['\n']

/-- A 2-field input. -/
def sShort : Str := ("a&b").data

/-- The record produced by parsing `sOk`. -/
def rOk : Meldebestaetigung :=
  { alphanumerischer_code := ("A123456789").data
    leistungsdatum_zaehler := ("20240701001").data
    leistungserbringer_id := ("260530103").data
    datenknoten_id := ("KDKK00001").data
    meldungstyp := ("0").data
    indikationsbereich := ("O").data
    produktzuordnung := ("9").data
    kostentraeger := ("1").data
    art_der_daten := ("C").data
    art_der_sequenzierung := ("2").data
    qualitaetskontrolle := ("1").data
    leistungsdatum := some ⟨2024, 7, 1⟩
    zaehler := some 1
    warnings := [] }

/-- An envelope result with no embedded hash, around the example record. -/
def erNone : EdifactResult := ⟨rOk, none⟩

/-! # Helper lemmas -/

theorem splitOnChar_ne_nil (sep : Char) (l : Str) : splitOnChar sep l ≠ [] := by
  induction l with
  | nil => simp [splitOnChar]
  | cons c cs ih =>
    unfold splitOnChar
    by_cases h : c = sep
    · simp [h]
    · rw [if_neg h]
      rcases hs : splitOnChar sep cs with _ | ⟨f, rest⟩
      · exact absurd hs ih
      · simp

theorem joinOnChar_splitOnChar (sep : Char) (l : Str) :
    joinOnChar sep (splitOnChar sep l) = l := by
  induction l with
  | nil => rfl
  | cons c cs ih =>
    rcases hs : splitOnChar sep cs with _ | ⟨f, rest⟩
    · exact absurd hs (splitOnChar_ne_nil sep cs)
    · rw [hs] at ih
      by_cases h : c = sep
      · show joinOnChar sep (splitOnChar sep (c :: cs)) = c :: cs
        unfold splitOnChar
        rw [if_pos h, hs]
        show joinOnChar sep ([] :: f :: rest) = c :: cs
        unfold joinOnChar
        rw [ih, h]
        rfl
      · show joinOnChar sep (splitOnChar sep (c :: cs)) = c :: cs
        unfold splitOnChar
        rw [if_neg h, hs]
        show joinOnChar sep ((c :: f) :: rest) = c :: cs
        rcases rest with _ | ⟨g, rest2⟩
        · unfold joinOnChar at ih ⊢
          rw [ih]
        · unfold joinOnChar at ih ⊢
          rw [← ih]
          rfl

theorem list_eq_of_length11 (l : List Str) (h : l.length = 11) :
    [l.getD 0 [], l.getD 1 [], l.getD 2 [], l.getD 3 [], l.getD 4 [], l.getD 5 [],
     l.getD 6 [], l.getD 7 [], l.getD 8 [], l.getD 9 [], l.getD 10 []] = l := by
  rcases l with _ | ⟨a0, l⟩
  · simp at h
  rcases l with _ | ⟨a1, l⟩
  · simp at h
  rcases l with _ | ⟨a2, l⟩
  · simp at h
  rcases l with _ | ⟨a3, l⟩
  · simp at h
  rcases l with _ | ⟨a4, l⟩
  · simp at h
  rcases l with _ | ⟨a5, l⟩
  · simp at h
  rcases l with _ | ⟨a6, l⟩
  · simp at h
  rcases l with _ | ⟨a7, l⟩
  · simp at h
  rcases l with _ | ⟨a8, l⟩
  · simp at h
  rcases l with _ | ⟨a9, l⟩
  · simp at h
  rcases l with _ | ⟨a10, l⟩
  · simp at h
  rcases l with _ | ⟨a11, l⟩
  · rfl
  · simp at h

theorem from_string_ok {s : Str} {r : Meldebestaetigung}
    (h : Meldebestaetigung.from_string s = Except.ok r) :
    (splitOnChar '&' s).length = 11 ∧ r = Meldebestaetigung.recordOf s := by
  unfold Meldebestaetigung.from_string at h
  by_cases h11 : (splitOnChar '&' s).length = 11
  · rw [if_pos h11] at h
    injection h with h
    exact ⟨h11, h.symm⟩
  · rw [if_neg h11] at h
    cases h

theorem mk_ne {p q : Str} (x y : Str) (h1 : ¬ p <+: q) (h2 : ¬ q <+: p) :
    p ++ x ≠ q ++ y := by
  intro he
  rcases le_total p.length q.length with hle | hle
  · apply h1
    have ht : p = (q ++ y).take p.length := by rw [← he, List.take_left]
    rw [List.take_append_eq_append_take, Nat.sub_eq_zero_of_le hle, List.take_zero,
      List.append_nil] at ht
    rw [ht]
    exact List.take_prefix _ _
  · apply h2
    have ht : q = (p ++ x).take q.length := by rw [he, List.take_left]
    rw [List.take_append_eq_append_take, Nat.sub_eq_zero_of_le hle, List.take_zero,
      List.append_nil] at ht
    rw [ht]
    exact List.take_prefix _ _

theorem mk_ne_const {p q : Str} (y : Str) (h2 : ¬ q <+: p) : p ≠ q ++ y := by
  intro he
  apply h2
  rw [he]
  exact List.prefix_append _ _

theorem countOcc_append (x : Str) (l1 l2 : List Str) :
    countOcc x (l1 ++ l2) = countOcc x l1 + countOcc x l2 := by
  induction l1 with
  | nil => simp [countOcc]
  | cons w ws ih =>
    show (if w = x then 1 else 0) + countOcc x (ws ++ l2) =
      ((if w = x then 1 else 0) + countOcc x ws) + countOcc x l2
    rw [ih]
    omega

theorem countOcc_ite (c : Prop) [Decidable c] (m x : Str) (h : m ≠ x) :
    countOcc x (if c then ([] : List Str) else [m]) = 0 := by
  split
  · rfl
  · simp [countOcc, h]

theorem countOcc_ite_hit (c : Prop) [Decidable c] (x : Str) (h : ¬ c) :
    countOcc x (if c then ([] : List Str) else [x]) = 1 := by
  rw [if_neg h]
  simp [countOcc]

theorem countOcc_ite_miss (c : Prop) [Decidable c] (m x : Str) (h : c) :
    countOcc x (if c then ([] : List Str) else [m]) = 0 := by
  rw [if_pos h]
  rfl

/-! ## Distinctness of the warning-message families

Every warning message starts with a fixed prefix peculiar to the check that
produced it, so messages from different checks are never equal, whatever the
interpolated payloads are. -/

theorem ne_chars_meld (x : Str) : msgChars ≠ msgMeld x := by
  unfold msgChars msgMeld
  exact mk_ne_const _ (by decide)

theorem ne_meld_chars (x : Str) : msgMeld x ≠ msgChars := (ne_chars_meld x).symm

theorem ne_chars_lz (x : Str) : msgChars ≠ msgLZ x := by
  unfold msgChars msgLZ
  exact mk_ne_const _ (by decide)

theorem ne_lz_chars (x : Str) : msgLZ x ≠ msgChars := (ne_chars_lz x).symm

theorem ne_chars_n11 (x : Str) : msgChars ≠ msgN11 x := by
  unfold msgChars msgN11
  exact mk_ne_const _ (by decide)

theorem ne_n11_chars (x : Str) : msgN11 x ≠ msgChars := (ne_chars_n11 x).symm

theorem ne_lz_meld (x y : Str) : msgLZ x ≠ msgMeld y := by
  unfold msgLZ msgMeld
  exact mk_ne _ _ (by decide) (by decide)

theorem ne_meld_lz (x y : Str) : msgMeld x ≠ msgLZ y := (ne_lz_meld y x).symm

theorem ne_n11_meld (x y : Str) : msgN11 x ≠ msgMeld y := by
  unfold msgN11 msgMeld
  exact mk_ne _ _ (by decide) (by decide)

theorem ne_meld_n11 (x y : Str) : msgMeld x ≠ msgN11 y := (ne_n11_meld y x).symm

theorem ne_n11_lz (x y : Str) : msgN11 x ≠ msgLZ y := by
  unfold msgN11 msgLZ
  exact mk_ne _ _ (by decide) (by decide)

theorem ne_lz_n11 (x y : Str) : msgLZ x ≠ msgN11 y := (ne_n11_lz y x).symm

theorem ne_lenCode_chars (n : Nat) : msgLenCode n ≠ msgChars := by
  unfold msgLenCode msgChars
  exact (mk_ne_const _ (by decide)).symm

theorem ne_lenCode_meld (n : Nat) (x : Str) : msgLenCode n ≠ msgMeld x := by
  unfold msgLenCode msgMeld
  exact mk_ne _ _ (by decide) (by decide)

theorem ne_lenCode_lz (n : Nat) (x : Str) : msgLenCode n ≠ msgLZ x := by
  unfold msgLenCode msgLZ
  exact mk_ne _ _ (by decide) (by decide)

theorem ne_lenCode_n11 (n : Nat) (x : Str) : msgLenCode n ≠ msgN11 x := by
  unfold msgLenCode msgN11
  exact mk_ne _ _ (by decide) (by decide)

theorem ne_lenLE_chars (n : Nat) : msgLenLE n ≠ msgChars := by
  unfold msgLenLE msgChars
  exact (mk_ne_const _ (by decide)).symm

theorem ne_lenLE_meld (n : Nat) (x : Str) : msgLenLE n ≠ msgMeld x := by
  unfold msgLenLE msgMeld
  exact mk_ne _ _ (by decide) (by decide)

theorem ne_lenLE_lz (n : Nat) (x : Str) : msgLenLE n ≠ msgLZ x := by
  unfold msgLenLE msgLZ
  exact mk_ne _ _ (by decide) (by decide)

theorem ne_lenLE_n11 (n : Nat) (x : Str) : msgLenLE n ≠ msgN11 x := by
  unfold msgLenLE msgN11
  exact mk_ne _ _ (by decide) (by decide)

theorem ne_lenDK_chars (n : Nat) : msgLenDK n ≠ msgChars := by
  unfold msgLenDK msgChars
  exact (mk_ne_const _ (by decide)).symm

theorem ne_lenDK_meld (n : Nat) (x : Str) : msgLenDK n ≠ msgMeld x := by
  unfold msgLenDK msgMeld
  exact mk_ne _ _ (by decide) (by decide)

theorem ne_lenDK_lz (n : Nat) (x : Str) : msgLenDK n ≠ msgLZ x := by
  unfold msgLenDK msgLZ
  exact mk_ne _ _ (by decide) (by decide)

theorem ne_lenDK_n11 (n : Nat) (x : Str) : msgLenDK n ≠ msgN11 x := by
  unfold msgLenDK msgN11
  exact mk_ne _ _ (by decide) (by decide)

theorem ne_indik_chars (x : Str) : msgIndik x ≠ msgChars := by
  unfold msgIndik msgChars
  exact (mk_ne_const _ (by decide)).symm

theorem ne_indik_meld (x y : Str) : msgIndik x ≠ msgMeld y := by
  unfold msgIndik msgMeld
  exact mk_ne _ _ (by decide) (by decide)

theorem ne_indik_lz (x y : Str) : msgIndik x ≠ msgLZ y := by
  unfold msgIndik msgLZ
  exact mk_ne _ _ (by decide) (by decide)

theorem ne_indik_n11 (x y : Str) : msgIndik x ≠ msgN11 y := by
  unfold msgIndik msgN11
  exact mk_ne _ _ (by decide) (by decide)

theorem ne_prod_chars (x : Str) : msgProd x ≠ msgChars := by
  unfold msgProd msgChars
  exact (mk_ne_const _ (by decide)).symm

theorem ne_prod_meld (x y : Str) : msgProd x ≠ msgMeld y := by
  unfold msgProd msgMeld
  exact mk_ne _ _ (by decide) (by decide)

theorem ne_prod_lz (x y : Str) : msgProd x ≠ msgLZ y := by
  unfold msgProd msgLZ
  exact mk_ne _ _ (by decide) (by decide)

theorem ne_prod_n11 (x y : Str) : msgProd x ≠ msgN11 y := by
  unfold msgProd msgN11
  exact mk_ne _ _ (by decide) (by decide)

theorem ne_kost_chars (x : Str) : msgKost x ≠ msgChars := by
  unfold msgKost msgChars
  exact (mk_ne_const _ (by decide)).symm

theorem ne_kost_meld (x y : Str) : msgKost x ≠ msgMeld y := by
  unfold msgKost msgMeld
  exact mk_ne _ _ (by decide) (by decide)

theorem ne_kost_lz (x y : Str) : msgKost x ≠ msgLZ y := by
  unfold msgKost msgLZ
  exact mk_ne _ _ (by decide) (by decide)

theorem ne_kost_n11 (x y : Str) : msgKost x ≠ msgN11 y := by
  unfold msgKost msgN11
  exact mk_ne _ _ (by decide) (by decide)

theorem ne_artD_chars (x : Str) : msgArtD x ≠ msgChars := by
  unfold msgArtD msgChars
  exact (mk_ne_const _ (by decide)).symm

theorem ne_artD_meld (x y : Str) : msgArtD x ≠ msgMeld y := by
  unfold msgArtD msgMeld
  exact mk_ne _ _ (by decide) (by decide)

theorem ne_artD_lz (x y : Str) : msgArtD x ≠ msgLZ y := by
  unfold msgArtD msgLZ
  exact mk_ne _ _ (by decide) (by decide)

theorem ne_artD_n11 (x y : Str) : msgArtD x ≠ msgN11 y := by
  unfold msgArtD msgN11
  exact mk_ne _ _ (by decide) (by decide)

theorem ne_artS_chars (x : Str) : msgArtS x ≠ msgChars := by
  unfold msgArtS msgChars
  exact (mk_ne_const _ (by decide)).symm

theorem ne_artS_meld (x y : Str) : msgArtS x ≠ msgMeld y := by
  unfold msgArtS msgMeld
  exact mk_ne _ _ (by decide) (by decide)

theorem ne_artS_lz (x y : Str) : msgArtS x ≠ msgLZ y := by
  unfold msgArtS msgLZ
  exact mk_ne _ _ (by decide) (by decide)

theorem ne_artS_n11 (x y : Str) : msgArtS x ≠ msgN11 y := by
  unfold msgArtS msgN11
  exact mk_ne _ _ (by decide) (by decide)

theorem ne_qk_chars (x : Str) : msgQK x ≠ msgChars := by
  unfold msgQK msgChars
  exact (mk_ne_const _ (by decide)).symm

theorem ne_qk_meld (x y : Str) : msgQK x ≠ msgMeld y := by
  unfold msgQK msgMeld
  exact mk_ne _ _ (by decide) (by decide)

theorem ne_qk_lz (x y : Str) : msgQK x ≠ msgLZ y := by
  unfold msgQK msgLZ
  exact mk_ne _ _ (by decide) (by decide)

theorem ne_qk_n11 (x y : Str) : msgQK x ≠ msgN11 y := by
  unfold msgQK msgN11
  exact mk_ne _ _ (by decide) (by decide)

/-! ## Shape of the derivation warnings and counting over `validate_syntax` -/

theorem parseLZ_warnings_cases (f : Str) :
    (parseLeistungsdatumZaehler f).2.2 = [] ∨
      (parseLeistungsdatumZaehler f).2.2 = [msgLZ f] := by
  unfold parseLeistungsdatumZaehler
  by_cases h : f.length = 11
  · rw [if_pos h]
    cases hd : strptimeYmd8 (f.take 8) with
    | none => right; rfl
    | some d =>
      cases hz : pyIntParse (f.drop 8) with
      | none => right; rfl
      | some z => left; rfl
  · rw [if_neg h]
    left
    rfl

theorem countOcc_parseLZ_of_ne (f x : Str) (h : msgLZ f ≠ x) :
    countOcc x (parseLeistungsdatumZaehler f).2.2 = 0 := by
  rcases parseLZ_warnings_cases f with hw | hw <;> rw [hw]
  · rfl
  · simp [countOcc, h]

theorem countOcc_validate_meld (s : Str) (h11 : (splitOnChar '&' s).length = 11)
    (hbad : (splitOnChar '&' s).getD 4 [] ∉ MELDUNGSTYP.map Prod.fst) :
    countOcc (msgMeld ((splitOnChar '&' s).getD 4 []))
      (Meldebestaetigung.validate_syntax s) = 1 := by
  unfold Meldebestaetigung.validate_syntax
  rw [if_neg (fun hc => hc h11)]
  unfold chunkChar chunk0 chunk1 chunk2 chunk3 chunk4 chunk5 chunk6 chunk7 chunk8 chunk9 chunk10
  simp only [countOcc_append]
  rw [countOcc_ite _ _ _ (ne_chars_meld _),
    countOcc_ite _ _ _ (ne_lenCode_meld _ _),
    countOcc_ite _ _ _ (ne_n11_meld _ _),
    countOcc_ite _ _ _ (ne_lenLE_meld _ _),
    countOcc_ite _ _ _ (ne_lenDK_meld _ _),
    countOcc_ite_hit _ _ hbad,
    countOcc_ite _ _ _ (ne_indik_meld _ _),
    countOcc_ite _ _ _ (ne_prod_meld _ _),
    countOcc_ite _ _ _ (ne_kost_meld _ _),
    countOcc_ite _ _ _ (ne_artD_meld _ _),
    countOcc_ite _ _ _ (ne_artS_meld _ _),
    countOcc_ite _ _ _ (ne_qk_meld _ _)]

theorem countOcc_validate_chars (s : Str) (h11 : (splitOnChar '&' s).length = 11) :
    countOcc msgChars (Meldebestaetigung.validate_syntax s) =
      if charsetOk s then 0 else 1 := by
  unfold Meldebestaetigung.validate_syntax
  rw [if_neg (fun hc => hc h11)]
  unfold chunkChar chunk0 chunk1 chunk2 chunk3 chunk4 chunk5 chunk6 chunk7 chunk8 chunk9 chunk10
  simp only [countOcc_append]
  rw [countOcc_ite _ _ _ (ne_lenCode_chars _),
    countOcc_ite _ _ _ (ne_n11_chars _),
    countOcc_ite _ _ _ (ne_lenLE_chars _),
    countOcc_ite _ _ _ (ne_lenDK_chars _),
    countOcc_ite _ _ _ (ne_meld_chars _),
    countOcc_ite _ _ _ (ne_indik_chars _),
    countOcc_ite _ _ _ (ne_prod_chars _),
    countOcc_ite _ _ _ (ne_kost_chars _),
    countOcc_ite _ _ _ (ne_artD_chars _),
    countOcc_ite _ _ _ (ne_artS_chars _),
    countOcc_ite _ _ _ (ne_qk_chars _)]
  by_cases hc : charsetOk s
  · rw [countOcc_ite_miss _ _ _ hc, if_pos hc]
  · rw [countOcc_ite_hit _ _ hc, if_neg hc]

theorem countOcc_validate_lz (s x : Str) (h11 : (splitOnChar '&' s).length = 11) :
    countOcc (msgLZ x) (Meldebestaetigung.validate_syntax s) = 0 := by
  unfold Meldebestaetigung.validate_syntax
  rw [if_neg (fun hc => hc h11)]
  unfold chunkChar chunk0 chunk1 chunk2 chunk3 chunk4 chunk5 chunk6 chunk7 chunk8 chunk9 chunk10
  simp only [countOcc_append]
  rw [countOcc_ite _ _ _ (ne_chars_lz _),
    countOcc_ite _ _ _ (ne_lenCode_lz _ _),
    countOcc_ite _ _ _ (ne_n11_lz _ _),
    countOcc_ite _ _ _ (ne_lenLE_lz _ _),
    countOcc_ite _ _ _ (ne_lenDK_lz _ _),
    countOcc_ite _ _ _ (ne_meld_lz _ _),
    countOcc_ite _ _ _ (ne_indik_lz _ _),
    countOcc_ite _ _ _ (ne_prod_lz _ _),
    countOcc_ite _ _ _ (ne_kost_lz _ _),
    countOcc_ite _ _ _ (ne_artD_lz _ _),
    countOcc_ite _ _ _ (ne_artS_lz _ _),
    countOcc_ite _ _ _ (ne_qk_lz _ _)]

theorem countOcc_validate_n11 (s : Str) (h11 : (splitOnChar '&' s).length = 11) :
    countOcc (msgN11 ((splitOnChar '&' s).getD 1 []))
      (Meldebestaetigung.validate_syntax s) =
      if ((splitOnChar '&' s).getD 1 []).length = 11 &&
          pyIsDigit ((splitOnChar '&' s).getD 1 []) then 0 else 1 := by
  unfold Meldebestaetigung.validate_syntax
  rw [if_neg (fun hc => hc h11)]
  unfold chunkChar chunk0 chunk1 chunk2 chunk3 chunk4 chunk5 chunk6 chunk7 chunk8 chunk9 chunk10
  simp only [countOcc_append]
  rw [countOcc_ite _ _ _ (ne_chars_n11 _),
    countOcc_ite _ _ _ (ne_lenCode_n11 _ _),
    countOcc_ite _ _ _ (ne_lenLE_n11 _ _),
    countOcc_ite _ _ _ (ne_lenDK_n11 _ _),
    countOcc_ite _ _ _ (ne_meld_n11 _ _),
    countOcc_ite _ _ _ (ne_indik_n11 _ _),
    countOcc_ite _ _ _ (ne_prod_n11 _ _),
    countOcc_ite _ _ _ (ne_kost_n11 _ _),
    countOcc_ite _ _ _ (ne_artD_n11 _ _),
    countOcc_ite _ _ _ (ne_artS_n11 _ _),
    countOcc_ite _ _ _ (ne_qk_n11 _ _)]
  by_cases hc : ((splitOnChar '&' s).getD 1 []).length = 11 &&
      pyIsDigit ((splitOnChar '&' s).getD 1 [])
  · rw [countOcc_ite_miss _ _ _ hc, if_pos hc]
  · rw [countOcc_ite_hit _ _ hc, if_neg hc]

/-! # Claims -/

/-- C1: for every input string accepted by parsing (splitting on `&` yields
exactly 11 fields, regardless of per-field validation findings), serializing
the parsed record reproduces the input exactly:
`to_mb_string(from_string(s)) = s`. -/
theorem c1_round_trip (s : Str) (r : Meldebestaetigung)
    (h : Meldebestaetigung.from_string s = Except.ok r) :
    Meldebestaetigung.to_mb_string r = s := by
  obtain ⟨h11, hr⟩ := from_string_ok h
  subst hr
  show joinOnChar '&'
    [(splitOnChar '&' s).getD 0 [], (splitOnChar '&' s).getD 1 [],
     (splitOnChar '&' s).getD 2 [], (splitOnChar '&' s).getD 3 [],
     (splitOnChar '&' s).getD 4 [], (splitOnChar '&' s).getD 5 [],
     (splitOnChar '&' s).getD 6 [], (splitOnChar '&' s).getD 7 [],
     (splitOnChar '&' s).getD 8 [], (splitOnChar '&' s).getD 9 [],
     (splitOnChar '&' s).getD 10 []] = s
  rw [list_eq_of_length11 _ h11]
  exact joinOnChar_splitOnChar '&' s

/-- Witness for C1 at the documentation's example input. -/
theorem c1_round_trip_witness :
    Meldebestaetigung.from_string sOk = Except.ok rOk ∧
      Meldebestaetigung.to_mb_string rOk = sOk :=
  ⟨rfl, c1_round_trip sOk rOk rfl⟩

/-- C2 counterexample: the input `sOk ++ "\n"` contains a character outside
`[A-Za-z0-9&]` and splits into exactly 11 fields, yet the parsed record's
findings do not contain the character-class finding — Python's `$` matches
just before a single trailing newline, so the regex accepts the string. -/
theorem c2_counterexample :
    (splitOnChar '&' sNewline).length = 11 ∧
    ('\n' ∈ sNewline ∧ allowedChar '\n' = false) ∧
    (Meldebestaetigung.from_string sNewline).toOption.map
      (fun r => countOcc msgChars r.warnings) = some 0 := by
  decide

/-- C2 (amended): parsing fails with the fatal structural error (carrying the
observed count) exactly when splitting on `&` yields a field count other than
11; an 11-field input produces a record whose findings contain the
character-class finding exactly once precisely when the allowed-character
regex fails — i.e. when a disallowed character occurs anywhere except as a
single newline at the very end of the string, which the regex does not flag. -/
theorem c2_structural (s : Str) :
    ((∃ e, Meldebestaetigung.from_string s = Except.error e) ↔
      (splitOnChar '&' s).length ≠ 11) ∧
    ((splitOnChar '&' s).length ≠ 11 →
      Meldebestaetigung.from_string s =
        Except.error (msgCount (splitOnChar '&' s).length)) ∧
    ((splitOnChar '&' s).length = 11 →
      ∃ r, Meldebestaetigung.from_string s = Except.ok r ∧
        countOcc msgChars r.warnings = if charsetOk s then 0 else 1) := by
  by_cases h11 : (splitOnChar '&' s).length = 11
  · refine ⟨⟨fun ⟨e, he⟩ => ?_, fun hn => absurd h11 hn⟩, fun hn => absurd h11 hn, fun _ => ?_⟩
    · unfold Meldebestaetigung.from_string at he
      rw [if_pos h11] at he
      cases he
    · refine ⟨Meldebestaetigung.recordOf s, ?_, ?_⟩
      · unfold Meldebestaetigung.from_string
        rw [if_pos h11]
      · show countOcc msgChars ((parseLeistungsdatumZaehler _).2.2 ++
          Meldebestaetigung.validate_syntax s) = _
        rw [countOcc_append, countOcc_parseLZ_of_ne _ _ (ne_lz_chars _),
          countOcc_validate_chars s h11, Nat.zero_add]
  · refine ⟨⟨fun _ => h11, fun _ => ?_⟩, fun _ => ?_, fun he => absurd he h11⟩
    · exact ⟨msgCount (splitOnChar '&' s).length, by
        unfold Meldebestaetigung.from_string
        rw [if_neg h11]⟩
    · unfold Meldebestaetigung.from_string
      rw [if_neg h11]

/-- Witness for C2 at a 2-field input and at the 11-field example input. -/
theorem c2_structural_witness :
    ((splitOnChar '&' sShort).length ≠ 11 ∧
      Meldebestaetigung.from_string sShort =
        Except.error (msgCount (splitOnChar '&' sShort).length)) ∧
    ((splitOnChar '&' sOk).length = 11 ∧
      ∃ r, Meldebestaetigung.from_string sOk = Except.ok r ∧
        countOcc msgChars r.warnings = if charsetOk sOk then 0 else 1) :=
  ⟨⟨by decide, (c2_structural sShort).2.1 (by decide)⟩,
   ⟨by decide, (c2_structural sOk).2.2 (by decide)⟩⟩

/-- C7: parsing the documentation's example input succeeds with an empty
findings list, derived sequence number 1, and derived service date
2024-07-01. -/
theorem c7_end_to_end :
    (Meldebestaetigung.from_string sOk).toOption.map
      (fun r => (r.warnings, r.zaehler, r.leistungsdatum)) =
      some ([], some 1, some ⟨2024, 7, 1⟩) := by
  decide

/-- C8: on every record produced by `from_string`, the findings list is the
derivation warnings of the composite field followed by the syntax-validation
warnings; in particular a derivation finding, when present, sits at the head
of the list, before every syntax finding. -/
theorem c8_derivation_first (s : Str) (r : Meldebestaetigung)
    (h : Meldebestaetigung.from_string s = Except.ok r) :
    r.warnings = (parseLeistungsdatumZaehler ((splitOnChar '&' s).getD 1 [])).2.2 ++
        Meldebestaetigung.validate_syntax s ∧
    (∀ w, (parseLeistungsdatumZaehler ((splitOnChar '&' s).getD 1 [])).2.2 = [w] →
      r.warnings.head? = some w) := by
  obtain ⟨h11, hr⟩ := from_string_ok h
  subst hr
  refine ⟨rfl, fun w hw => ?_⟩
  show ((parseLeistungsdatumZaehler ((splitOnChar '&' s).getD 1 [])).2.2 ++
    Meldebestaetigung.validate_syntax s).head? = some w
  rw [hw]
  rfl

/-- Witness for C8 at an input whose composite field yields a derivation
finding. -/
theorem c8_derivation_first_witness :
    (parseLeistungsdatumZaehler ((splitOnChar '&' sBadDate).getD 1 [])).2.2 =
      [msgLZ (("2024070X001").data)] ∧
    (Meldebestaetigung.recordOf sBadDate).warnings.head? =
      some (msgLZ (("2024070X001").data)) :=
  ⟨by decide,
   (c8_derivation_first sBadDate (Meldebestaetigung.recordOf sBadDate) rfl).2 _ (by decide)⟩

/-- C9: there is an 11-field input whose composite field has 11 characters,
a valid date prefix, and a counter suffix rejected by `int()`, and whose
parsed record has the service date set while the sequence number is unset. -/
theorem c9_date_set_counter_unset :
    ∃ s : Str, (splitOnChar '&' s).length = 11 ∧
      ((splitOnChar '&' s).getD 1 []).length = 11 ∧
      strptimeYmd8 (((splitOnChar '&' s).getD 1 []).take 8) = some ⟨2024, 7, 1⟩ ∧
      pyIntParse (((splitOnChar '&' s).getD 1 []).drop 8) = none ∧
      (Meldebestaetigung.from_string s).toOption.map
        (fun r => (r.leistungsdatum, r.zaehler)) = some (some ⟨2024, 7, 1⟩, none) :=
  ⟨sCounterX, by decide⟩

/-- C10: there is an 11-field input whose composite counter suffix `+12` is
not all digits yet is accepted by Python's lenient `int()`, and whose parsed
record has both derived values set with no derivation finding. -/
theorem c10_lenient_counter :
    ∃ s : Str, (splitOnChar '&' s).length = 11 ∧
      ((splitOnChar '&' s).getD 1 []).drop 8 = ("+12").data ∧
      (((splitOnChar '&' s).getD 1 []).drop 8).all Char.isDigit = false ∧
      pyIntParse (((splitOnChar '&' s).getD 1 []).drop 8) = some 12 ∧
      (parseLeistungsdatumZaehler ((splitOnChar '&' s).getD 1 [])).2.2 = [] ∧
      (Meldebestaetigung.from_string s).toOption.map
        (fun r => (r.leistungsdatum, r.zaehler)) = some (some ⟨2024, 7, 1⟩, some 12) :=
  ⟨sCounterPlus, by decide⟩

theorem pyIsDigit_of_len11 (f : Str) (hlen : f.length = 11)
    (hall : f.all Char.isDigit = true) : pyIsDigit f = true := by
  unfold pyIsDigit
  rw [hall]
  cases f with
  | nil => simp at hlen
  | cons c cs => rfl


theorem countOcc_lz_single (f : Str) : countOcc (msgLZ f) [msgLZ f] = 1 := by
  show (if msgLZ f = msgLZ f then 1 else 0) + 0 = 1
  rw [if_pos rfl]

theorem countOcc_n11_of_lz (f g : Str) : countOcc (msgN11 g) [msgLZ f] = 0 := by
  show (if msgLZ f = msgN11 g then 1 else 0) + 0 = 0
  rw [if_neg (ne_lz_n11 f g)]

/-- C3 counterexample: for the 11-field input whose composite field is
`2024070X001` — failing check (a), since it is not all digits — parsing
succeeds and both derived values are unset, but TWO findings concern the
composite (the derivation finding and the field-2 syntax finding), not
exactly one. -/
theorem c3_counterexample :
    ((splitOnChar '&' sBadDate).getD 1 []).length = 11 ∧
    ((splitOnChar '&' sBadDate).getD 1 []).all Char.isDigit = false ∧
    (Meldebestaetigung.from_string sBadDate).toOption.map
      (fun r => (r.leistungsdatum, r.zaehler,
        countOcc (msgLZ ((splitOnChar '&' sBadDate).getD 1 [])) r.warnings +
          countOcc (msgN11 ((splitOnChar '&' sBadDate).getD 1 [])) r.warnings)) =
      some (none, none, 2) := by
  decide

/-- C3 (amended): for every 11-field input whose composite field fails
check (a) by having a length other than 11, or passes the digit test but
fails check (b) (invalid calendar date), parsing does not raise, both
derived values are unset, and exactly one finding concerning the composite
is appended.  (An 11-character composite containing a non-digit instead
yields two composite findings when its date prefix is invalid, and a set
service date when the prefix parses; see the counterexample.) -/
theorem c3_composite_failure (s : Str) (h11 : (splitOnChar '&' s).length = 11)
    (hcase : ((splitOnChar '&' s).getD 1 []).length ≠ 11 ∨
      (((splitOnChar '&' s).getD 1 []).all Char.isDigit = true ∧
        strptimeYmd8 (((splitOnChar '&' s).getD 1 []).take 8) = none)) :
    ∃ r, Meldebestaetigung.from_string s = Except.ok r ∧
      r.leistungsdatum = none ∧ r.zaehler = none ∧
      countOcc (msgLZ ((splitOnChar '&' s).getD 1 [])) r.warnings +
        countOcc (msgN11 ((splitOnChar '&' s).getD 1 [])) r.warnings = 1 := by
  refine ⟨Meldebestaetigung.recordOf s, by
    unfold Meldebestaetigung.from_string
    rw [if_pos h11], ?_, ?_, ?_⟩
  all_goals
    rcases hcase with hlen | ⟨hdig, hdate⟩
  · show (parseLeistungsdatumZaehler ((splitOnChar '&' s).getD 1 [])).1 = none
    unfold parseLeistungsdatumZaehler
    rw [if_neg hlen]
  · show (parseLeistungsdatumZaehler ((splitOnChar '&' s).getD 1 [])).1 = none
    unfold parseLeistungsdatumZaehler
    by_cases hlen : ((splitOnChar '&' s).getD 1 []).length = 11
    · rw [if_pos hlen, hdate]
    · rw [if_neg hlen]
  · show (parseLeistungsdatumZaehler ((splitOnChar '&' s).getD 1 [])).2.1 = none
    unfold parseLeistungsdatumZaehler
    rw [if_neg hlen]
  · show (parseLeistungsdatumZaehler ((splitOnChar '&' s).getD 1 [])).2.1 = none
    unfold parseLeistungsdatumZaehler
    by_cases hlen : ((splitOnChar '&' s).getD 1 []).length = 11
    · rw [if_pos hlen, hdate]
    · rw [if_neg hlen]
  · have hplz : parseLeistungsdatumZaehler ((splitOnChar '&' s).getD 1 []) =
        (none, none, []) := by
      unfold parseLeistungsdatumZaehler
      rw [if_neg hlen]
    show countOcc (msgLZ ((splitOnChar '&' s).getD 1 []))
        ((parseLeistungsdatumZaehler ((splitOnChar '&' s).getD 1 [])).2.2 ++
          Meldebestaetigung.validate_syntax s) +
      countOcc (msgN11 ((splitOnChar '&' s).getD 1 []))
        ((parseLeistungsdatumZaehler ((splitOnChar '&' s).getD 1 [])).2.2 ++
          Meldebestaetigung.validate_syntax s) = 1
    rw [hplz]
    show countOcc (msgLZ ((splitOnChar '&' s).getD 1 []))
        (Meldebestaetigung.validate_syntax s) +
      countOcc (msgN11 ((splitOnChar '&' s).getD 1 []))
        (Meldebestaetigung.validate_syntax s) = 1
    rw [countOcc_validate_lz s _ h11, countOcc_validate_n11 s h11,
      if_neg (by
        intro hc
        rw [Bool.and_eq_true] at hc
        exact hlen (of_decide_eq_true hc.1))]
  · by_cases hlen : ((splitOnChar '&' s).getD 1 []).length = 11
    · have hplz : parseLeistungsdatumZaehler ((splitOnChar '&' s).getD 1 []) =
          (none, none, [msgLZ ((splitOnChar '&' s).getD 1 [])]) := by
        unfold parseLeistungsdatumZaehler
        rw [if_pos hlen, hdate]
      show countOcc (msgLZ ((splitOnChar '&' s).getD 1 []))
          ((parseLeistungsdatumZaehler ((splitOnChar '&' s).getD 1 [])).2.2 ++
            Meldebestaetigung.validate_syntax s) +
        countOcc (msgN11 ((splitOnChar '&' s).getD 1 []))
          ((parseLeistungsdatumZaehler ((splitOnChar '&' s).getD 1 [])).2.2 ++
            Meldebestaetigung.validate_syntax s) = 1
      rw [hplz]
      show countOcc (msgLZ ((splitOnChar '&' s).getD 1 []))
          ([msgLZ ((splitOnChar '&' s).getD 1 [])] ++
            Meldebestaetigung.validate_syntax s) +
        countOcc (msgN11 ((splitOnChar '&' s).getD 1 []))
          ([msgLZ ((splitOnChar '&' s).getD 1 [])] ++
            Meldebestaetigung.validate_syntax s) = 1
      rw [countOcc_append, countOcc_append, countOcc_validate_lz s _ h11,
        countOcc_validate_n11 s h11,
        if_pos (by
          rw [Bool.and_eq_true]
          exact ⟨decide_eq_true hlen, pyIsDigit_of_len11 _ hlen hdig⟩),
        countOcc_lz_single, countOcc_n11_of_lz]
    · have hplz : parseLeistungsdatumZaehler ((splitOnChar '&' s).getD 1 []) =
          (none, none, []) := by
        unfold parseLeistungsdatumZaehler
        rw [if_neg hlen]
      show countOcc (msgLZ ((splitOnChar '&' s).getD 1 []))
          ((parseLeistungsdatumZaehler ((splitOnChar '&' s).getD 1 [])).2.2 ++
            Meldebestaetigung.validate_syntax s) +
        countOcc (msgN11 ((splitOnChar '&' s).getD 1 []))
          ((parseLeistungsdatumZaehler ((splitOnChar '&' s).getD 1 [])).2.2 ++
            Meldebestaetigung.validate_syntax s) = 1
      rw [hplz]
      show countOcc (msgLZ ((splitOnChar '&' s).getD 1 []))
          (Meldebestaetigung.validate_syntax s) +
        countOcc (msgN11 ((splitOnChar '&' s).getD 1 []))
          (Meldebestaetigung.validate_syntax s) = 1
      rw [countOcc_validate_lz s _ h11, countOcc_validate_n11 s h11,
        if_neg (by
          intro hc
          rw [Bool.and_eq_true] at hc
          exact hlen (of_decide_eq_true hc.1))]

/-- Witness for the amended C3 at an 11-digit composite with month 13. -/
theorem c3_composite_failure_witness :
    ((splitOnChar '&' sDigitsBadDate).length = 11 ∧
      ((splitOnChar '&' sDigitsBadDate).getD 1 []).all Char.isDigit = true ∧
      strptimeYmd8 (((splitOnChar '&' sDigitsBadDate).getD 1 []).take 8) = none) ∧
    (∃ r, Meldebestaetigung.from_string sDigitsBadDate = Except.ok r ∧
      r.leistungsdatum = none ∧ r.zaehler = none ∧
      countOcc (msgLZ ((splitOnChar '&' sDigitsBadDate).getD 1 [])) r.warnings +
        countOcc (msgN11 ((splitOnChar '&' sDigitsBadDate).getD 1 [])) r.warnings = 1) :=
  ⟨⟨by decide, by decide, by decide⟩,
   c3_composite_failure sDigitsBadDate (by decide) (Or.inr ⟨by decide, by decide⟩)⟩

/-! ## Digest shape lemmas -/

theorem bytesToHex_length (bs : List Nat) : (bytesToHex bs).length = 2 * bs.length := by
  induction bs with
  | nil => rfl
  | cons b bs ih =>
    show (hexByte b ++ bytesToHex bs).length = 2 * (bs.length + 1)
    rw [List.length_append, ih]
    show 2 + 2 * bs.length = 2 * (bs.length + 1)
    omega

theorem digestBytes_length (h : Hash8) : (digestBytes h).length = 32 := by
  simp [digestBytes, be4]

theorem sha256hex_length (m : List Nat) : (sha256hexOfBytes m).length = 64 := by
  unfold sha256hexOfBytes
  rw [bytesToHex_length, digestBytes_length]

theorem hexDigit_mem (n : Nat) : hexDigit n ∈ ("0123456789abcdef").data := by
  unfold hexDigit
  by_cases h : n < (("0123456789abcdef").data).length
  · rw [List.getD_eq_getElem _ _ h]
    exact List.getElem_mem h
  · rw [List.getD_eq_default]
    · decide
    · omega

theorem bytesToHex_hex (bs : List Nat) :
    ∀ c ∈ bytesToHex bs, c ∈ ("0123456789abcdef").data := by
  induction bs with
  | nil =>
    intro c hc
    cases hc
  | cons b bs ih =>
    intro c hc
    rcases List.mem_append.mp hc with h1 | h2
    · rcases h1 with _ | ⟨_, h1⟩
      · exact hexDigit_mem _
      · rcases h1 with _ | ⟨_, h1⟩
        · exact hexDigit_mem _
        · cases h1
    · exact ih c h2

/-- C4 counterexample: a parsed record may contain non-ASCII characters (the
character-class violation is only a finding), and on such a record
`compute_hash` raises `UnicodeEncodeError` instead of returning a
64-hex-character digest. -/
theorem c4_counterexample :
    sNonAscii.all (fun c => c.toNat < 128) = false ∧
    (Meldebestaetigung.from_string sNonAscii).toOption.map
      Meldebestaetigung.compute_hash = some none := by
  decide

/-- C4 (amended): for every record whose canonical serialization is pure
ASCII, `compute_hash` returns the SHA-256 hex digest of the ASCII bytes of
the `&`-joined serialization — a 64-character string over the lowercase hex
alphabet — and its value is determined solely by the 11 raw fields,
independent of the findings list and the derived components. -/
theorem c4_hash (r : Meldebestaetigung)
    (h : (Meldebestaetigung.to_mb_string r).all (fun c => c.toNat < 128) = true) :
    Meldebestaetigung.compute_hash r =
      some (sha256hexOfBytes ((Meldebestaetigung.to_mb_string r).map Char.toNat)) ∧
    (sha256hexOfBytes ((Meldebestaetigung.to_mb_string r).map Char.toNat)).length = 64 ∧
    (∀ c ∈ sha256hexOfBytes ((Meldebestaetigung.to_mb_string r).map Char.toNat),
      c ∈ ("0123456789abcdef").data) ∧
    (∀ (w : List Str) (ld : Option PyDate) (z : Option Int),
      Meldebestaetigung.compute_hash
        { r with warnings := w, leistungsdatum := ld, zaehler := z } =
        Meldebestaetigung.compute_hash r) := by
  refine ⟨?_, sha256hex_length _, bytesToHex_hex _, fun w ld z => rfl⟩
  unfold Meldebestaetigung.compute_hash
  rw [if_pos h]

/-- Witness for the amended C4 at the example record. -/
theorem c4_hash_witness :
    (Meldebestaetigung.to_mb_string rOk).all (fun c => c.toNat < 128) = true ∧
    (Meldebestaetigung.compute_hash rOk =
      some (sha256hexOfBytes ((Meldebestaetigung.to_mb_string rOk).map Char.toNat)) ∧
    (sha256hexOfBytes ((Meldebestaetigung.to_mb_string rOk).map Char.toNat)).length = 64 ∧
    (∀ c ∈ sha256hexOfBytes ((Meldebestaetigung.to_mb_string rOk).map Char.toNat),
      c ∈ ("0123456789abcdef").data) ∧
    (∀ (w : List Str) (ld : Option PyDate) (z : Option Int),
      Meldebestaetigung.compute_hash
        { rOk with warnings := w, leistungsdatum := ld, zaehler := z } =
        Meldebestaetigung.compute_hash rOk)) :=
  ⟨by decide, c4_hash rOk (by decide)⟩

/-- The report-type finding carries the complete rendered key list of the
report-type table as a suffix. -/
theorem pyListRepr_suffix_msgMeld (x : Str) :
    pyListRepr (MELDUNGSTYP.map Prod.fst) <:+ msgMeld x := by
  unfold msgMeld
  exact ⟨preMeld ++ (x ++ (aposChar :: (". Erlaubt: ").data)), by simp⟩

/-- C5: for every 11-field input whose field 5 is not a key of the
report-type table, parsing succeeds, exactly one finding is the report-type
finding for the received code, and that finding enumerates the complete key
set of the table — `0,1,2,3,9` in declaration order — via the rendered list
it carries. -/
theorem c5_unknown_report_type (s : Str) (h11 : (splitOnChar '&' s).length = 11)
    (hbad : (splitOnChar '&' s).getD 4 [] ∉ MELDUNGSTYP.map Prod.fst) :
    ∃ r, Meldebestaetigung.from_string s = Except.ok r ∧
      countOcc (msgMeld ((splitOnChar '&' s).getD 4 [])) r.warnings = 1 ∧
      MELDUNGSTYP.map Prod.fst =
        [("0").data, ("1").data, ("2").data, ("3").data, ("9").data] ∧
      pyListRepr (MELDUNGSTYP.map Prod.fst) <:+
        msgMeld ((splitOnChar '&' s).getD 4 []) := by
  refine ⟨Meldebestaetigung.recordOf s, ?_, ?_, by decide, pyListRepr_suffix_msgMeld _⟩
  · unfold Meldebestaetigung.from_string
    rw [if_pos h11]
  · show countOcc (msgMeld ((splitOnChar '&' s).getD 4 []))
      ((parseLeistungsdatumZaehler ((splitOnChar '&' s).getD 1 [])).2.2 ++
        Meldebestaetigung.validate_syntax s) = 1
    rw [countOcc_append, countOcc_parseLZ_of_ne _ _ (ne_lz_meld _ _),
      countOcc_validate_meld s h11 hbad]

/-- Witness for C5 at the example input with unknown report-type code `7`. -/
theorem c5_unknown_report_type_witness :
    ((splitOnChar '&' sBadMeld).length = 11 ∧
      (splitOnChar '&' sBadMeld).getD 4 [] ∉ MELDUNGSTYP.map Prod.fst) ∧
    (∃ r, Meldebestaetigung.from_string sBadMeld = Except.ok r ∧
      countOcc (msgMeld ((splitOnChar '&' sBadMeld).getD 4 [])) r.warnings = 1 ∧
      MELDUNGSTYP.map Prod.fst =
        [("0").data, ("1").data, ("2").data, ("3").data, ("9").data] ∧
      pyListRepr (MELDUNGSTYP.map Prod.fst) <:+
        msgMeld ((splitOnChar '&' sBadMeld).getD 4 [])) :=
  ⟨⟨by decide, by decide⟩, c5_unknown_report_type sBadMeld (by decide) (by decide)⟩

/-- C6: for every envelope result, `hash_matches` is `true` exactly when an
embedded hash is present and equals the recomputed content hash of the
embedded record; an absent embedded hash gives `false`, not an error; and in
the structured export of `process_edifact_string` absence and mismatch are
independently observable — absence yields no `embedded_hash`/`hash_valid`
fields, while a present (nonempty) hash yields both, with `hash_valid`
reporting the comparison. -/
theorem c6_hash_matches (er : EdifactResult) :
    (er.embedded_hash = none →
      EdifactResult.hash_matches er = false ∧ exportHashFields er = some (none, none)) ∧
    (∀ h, er.embedded_hash = some h →
      (EdifactResult.hash_matches er = true ↔
        Meldebestaetigung.compute_hash er.meldebestaetigung = some h)) ∧
    (∀ h c, er.embedded_hash = some h → h ≠ [] →
      Meldebestaetigung.compute_hash er.meldebestaetigung = some c →
      exportHashFields er = some (some h, some (decide (h = c)))) := by
  refine ⟨fun hn => ?_, fun h hs => ?_, fun h c hs hne hc => ?_⟩
  · constructor
    · unfold EdifactResult.hash_matches
      rw [hn]
    · unfold exportHashFields
      rw [hn]
  · unfold EdifactResult.hash_matches
    rw [hs]
    cases hch : Meldebestaetigung.compute_hash er.meldebestaetigung with
    | none =>
      simp only [decide_eq_true_eq]
      constructor
      · intro hfalse
        cases hfalse
      · intro heq
        cases heq
    | some c =>
      simp only [decide_eq_true_eq]
      constructor
      · intro heq
        rw [heq]
      · intro heq
        injection heq with heq
        rw [heq]
  · unfold exportHashFields
    simp only [hs, hc, if_neg hne]

/-- Witness for C6 at an envelope with no embedded hash. -/
theorem c6_hash_matches_witness :
    EdifactResult.hash_matches erNone = false ∧
      exportHashFields erNone = some (none, none) :=
  (c6_hash_matches erNone).1 rfl
